import Mathlib

/-!
Verification of the work-card generation and milestone-packaging pipeline
(`generate_work_cards.py` and `zip_milestones.py`).

The first part embeds the data model and the operations of the two scripts
as executable Lean definitions; the second part states and proves the
properties claimed of them.  Machine strings are `String`, file systems are
explicit finite states threaded through the operations, and fallible
operations return `Option`.
-/

set_option maxHeartbeats 1000000

/-- A catalog milestone: a name, an inclusive numeric card range
`(start, end)`, and an ordered list of task-description strings. -/
structure Milestone where
  name : String
  card_range : Nat × Nat
  tasks : List String
deriving DecidableEq, Repr

/-- A synthesized work card.  Fields mirror the dictionary built by
`generate_work_card`: the three `tests_required` phases are inlined as the
three `*_phase` fields. -/
structure Card where
  card_number : String
  milestone : String
  feature_name : String
  complexity : Nat
  status : String
  red_phase : String
  green_phase : String
  refactor_phase : String
  dependencies : List String
  acceptance_criteria : List String
  treasure_vault : String
deriving DecidableEq, Repr

/-- Zero-pad the decimal representation of `n` to width 3
(Python `f"{n:03d}"` for a non-negative `n`): longer representations are
kept unchanged. -/
def pad3 (n : Nat) : String :=
  let s := Nat.repr n
  String.mk (List.replicate (3 - s.length) '0') ++ s

/-- The card tag `f"CARD_{card_number:03d}"`. -/
def cardTag (n : Nat) : String := "CARD_" ++ pad3 n

/-- `generate_work_card(milestone, card_number, task)`: the pure card
synthesizer.  `complexity` is `min(max(len(task) // 5, 1), 10)`; the
templated strings interpolate `task` exactly as the f-strings do. -/
def generate_work_card (milestone : Milestone) (card_number : Nat) (task : String) : Card :=
  { card_number := cardTag card_number
    milestone := milestone.name
    feature_name := task
    complexity := min (max (task.length / 5) 1) 10
    status := "locked"
    red_phase := "Failing test for " ++ task
    green_phase := "Minimal implementation to pass " ++ task ++ " test"
    refactor_phase := "Improve code quality for " ++ task
    dependencies := []
    acceptance_criteria := ["Complete " ++ task ++ " with TDD evidence"]
    treasure_vault := "SECURED_BY_BEAVER_🦫" }

/-- Python `enumerate(xs, start)`: pair each element with its index,
counting from `start`. -/
def enumFrom (start : Nat) : List α → List (Nat × α)
  | [] => []
  | a :: t => (start, a) :: enumFrom (start + 1) t

/-- The inner generation loop for one milestone:
`for idx, task in enumerate(milestone["tasks"], start=start): generate_work_card(milestone, idx, task)`
where `start` is the first component of the milestone's `card_range`. -/
def genMilestone (m : Milestone) : List Card :=
  (enumFrom m.card_range.1 m.tasks).map (fun p => generate_work_card m p.1 p.2)

/-- All cards produced by the module-level generation loop, in catalog
order. -/
def allCards (catalog : List Milestone) : List Card :=
  (catalog.map genMilestone).flatten

/-- Python `name.lower().replace(' ', '_')` for the ASCII milestone names
of the catalog. -/
def lowerUnder (s : String) : String :=
  String.mk (s.data.map (fun c => if c = ' ' then '_' else c.toLower))

/-- The card filename
`f"{card['card_number']}_{milestone['name'].lower().replace(' ', '_')}.yml"`. -/
def cardFilename (c : Card) (m : Milestone) : String :=
  c.card_number ++ "_" ++ lowerUnder m.name ++ ".yml"

/-- Stands for the opaque, deterministic YAML serialization
(`yaml.safe_dump`) of a card: a fixed encoding of all card fields.  The
spec treats the on-disk text format as an opaque encode capability, so only
determinism and field-dependence matter here. -/
def cardYaml (c : Card) : String :=
  c.card_number ++ "\n" ++ c.milestone ++ "\n" ++ c.feature_name ++ "\n" ++
  Nat.repr c.complexity ++ "\n" ++ c.status ++ "\n" ++ c.red_phase ++ "\n" ++
  c.green_phase ++ "\n" ++ c.refactor_phase ++ "\n" ++
  String.intercalate "\n" c.dependencies ++ "\n" ++
  String.intercalate "\n" c.acceptance_criteria ++ "\n" ++ c.treasure_vault

/-- The `(filename, file content)` pairs written by one run of the
generation loop, in write order. -/
def generationPairs (catalog : List Milestone) : List (String × String) :=
  (catalog.map (fun m => (genMilestone m).map (fun c => (cardFilename c m, cardYaml c)))).flatten

/-- A directory as a mapping from filename to file content:
`open(path, 'w')` overwrites, so later writes win. -/
def Store := String → Option String

/-- Writing one file: the new content shadows any previous content at the
same name. -/
def setFile (st : Store) (path content : String) : Store :=
  fun p => if p = path then some content else st p

/-- Writing a list of files in order into a directory. -/
def writeAll (st : Store) (ps : List (String × String)) : Store :=
  ps.foldl (fun s q => setFile s q.1 q.2) st

/-- The content the LAST write to `p` in `ps` would leave, if any. -/
def lookLast : List (String × String) → String → Option String
  | [], _ => none
  | q :: t, p =>
    match lookLast t p with
    | some v => some v
    | none => if q.1 = p then some q.2 else none

/-- The catalog hard-coded at the top of `generate_work_cards.py`,
verbatim. -/
def milestones : List Milestone :=
  [{ name := "TDD Foundation"
     card_range := (1, 8)
     tasks := [
       "Fix config_tests.rs complex type violations",
       "Convert Config struct tests to string functions",
       "Convert ConfigError tests to string outputs",
       "Test `do_*` functions, not internal structs",
       "Fix integration.rs RSB pattern violations",
       "Replace std::env with RSB patterns",
       "Replace std::fs with RSB operations",
       "Replace std::process with shell ops",
       "Establish RED-GREEN cycle discipline",
       "Document TDD workflow",
       "Create TDD templates",
       "Update test runner configuration",
       "Pass all existing tests with TDD patterns"] },
   { name := "Core KV Operations"
     card_range := (6, 12)
     tasks := [
       "Implement core KV commands (set, get, del, keys, scan)",
       "Develop namespace management",
       "Create basic auth system",
       "Implement stream processing with meta-directives",
       "Define exit code standards",
       "Ensure TDD for each new function",
       "Implement RSB string-first patterns",
       "Add comprehensive error handling",
       "Develop integration test coverage"] },
   { name := "TTL & Cache System"
     card_range := (13, 20)
     tasks := [
       "Create TTL namespace creation functionality",
       "Implement lazy expiry on read/write operations",
       "Add `--include-expired` flag",
       "Develop cache configuration management",
       "Design eviction policies",
       "Validate near-SQLite performance benchmarks",
       "Verify memory efficiency",
       "Implement concurrent access testing"] },
   { name := "Security & Auth"
     card_range := (21, 28)
     tasks := [
       "Enforce stream auth preamble",
       "Create user management system",
       "Implement session tokens",
       "Generate and validate API keys",
       "Design configurable security policies",
       "Delegate encryption to system tools",
       "Prevent auth bypass",
       "Implement input validation security",
       "Protect against stream injection"] },
   { name := "Data Management"
     card_range := (29, 35)
     tasks := [
       "Create backup system with optional encryption",
       "Implement TSV import/export",
       "Validate database integrity",
       "Develop migration utilities",
       "Add data compression options",
       "Verify backup restoration",
       "Test large dataset import/export",
       "Create corruption recovery procedures"] },
   { name := "Filesystem Mirror"
     card_range := (36, 42)
     tasks := [
       "Implement `export-fs` directory mapping",
       "Create `import-fs` synchronization",
       "Handle context suffix mapping",
       "Manage file formats (JSON default)",
       "Develop incremental sync capabilities",
       "Ensure `grep`/`rg` compatibility",
       "Integrate file system watch",
       "Design conflict resolution policies"] }]

/-- Whether `p` starts with `q`, on character lists. -/
def chStarts : List Char → List Char → Bool
  | [], _ => true
  | _ :: _, [] => false
  | a :: p1, b :: s1 => a == b && chStarts p1 s1

/-- Whether `p` occurs as a contiguous run inside `s`, on character
lists. -/
def chSub (p : List Char) : List Char → Bool
  | [] => p.isEmpty
  | b :: s1 => chStarts p (b :: s1) || chSub p s1

/-- Python's `p in s` on strings: `p` occurs as a literal contiguous
substring of `s`. -/
def strContains (s p : String) : Bool := chSub p.data s.data

/-- Python `s.split(',')` on character lists: `acc` holds the current
segment reversed. -/
def splitCommaCh : List Char → List Char → List String
  | [], acc => [String.mk acc.reverse]
  | c :: t, acc =>
    if c = ',' then String.mk acc.reverse :: splitCommaCh t []
    else splitCommaCh t (c :: acc)

/-- Python `card_pattern.split(',')`: the comma-separated sub-patterns. -/
def splitComma (s : String) : List String := splitCommaCh s.data []

/-- `any(pattern in filename for pattern in card_pattern.split(','))`:
a filename matches when at least one comma-separated sub-pattern of
`card_pattern` is a literal substring of it. -/
def matchesAny (card_pattern filename : String) : Bool :=
  (splitComma card_pattern).any (fun p => strContains filename p)

/-- The files the packager selects for one milestone out of the card
directory's filenames: the filter at lines 38-39 of `zip_milestones.py`. -/
def selectCards (card_pattern : String) (files : List String) : List String :=
  files.filter (fun f => matchesAny card_pattern f)

/-- A packaging milestone: archive name and comma-separated selection
pattern. -/
structure PkgMilestone where
  name : String
  card_pattern : String
deriving DecidableEq, Repr

/-- The packaging milestone list hard-coded inside
`zip_milestone_cards`. -/
def pkgMilestones : List PkgMilestone :=
  [⟨"MILESTONE_2_CORE_KV_OPS", "CARD_00[6-9].yml,CARD_01[0-2].yml"⟩,
   ⟨"MILESTONE_3_TTL_CACHE", "CARD_01[3-9].yml"⟩,
   ⟨"MILESTONE_4_SECURITY", "CARD_02[1-8].yml"⟩,
   ⟨"MILESTONE_5_DATA_MGMT", "CARD_02[9-35].yml"⟩,
   ⟨"MILESTONE_6_FILESYSTEM_MIRROR", "CARD_03[6-42].yml"⟩]

/-- One `{milestone, password}` record of the password vault. -/
structure VaultEntry where
  milestone : String
  password : String
deriving DecidableEq, Repr

/-- `f"beaver_dam_{timestamp}_{milestone['name']}"` where `timestamp` is
today's date rendered `YYYYMMDD`; the date is a parameter of the model. -/
def mkPassword (date name : String) : String :=
  "beaver_dam_" ++ date ++ "_" ++ name

/-- The file system as the packaging stage sees it: known directories,
files (later writes shadow earlier entries; `List.lookup` reads the
current content) and permission bits set by `chmod`. -/
structure FS where
  dirs : List String
  files : List (String × String)
  perms : List (String × Nat)
deriving DecidableEq, Repr

/-- `os.makedirs(d, exist_ok=True)`: record the directory, idempotently. -/
def mkdirs (fs : FS) (d : String) : FS :=
  if d ∈ fs.dirs then fs else { fs with dirs := d :: fs.dirs }

/-- `open(path, 'w')` followed by writing `content`: overwrite semantics
via shadowing. -/
def writeFile (fs : FS) (path content : String) : FS :=
  { fs with files := (path, content) :: fs.files }

/-- `os.chmod(path, mode)`. -/
def chmodFile (fs : FS) (path : String) (mode : Nat) : FS :=
  { fs with perms := (path, mode) :: fs.perms }

/-- The hard-coded fortress path of `zip_milestone_cards`. -/
def fortress_path : String := "/home/xnull/repos/code/rust/oodx/prontodb/.dams/fortress"

/-- `os.path.join(fortress_path, "work_cards")`. -/
def work_cards_path : String := fortress_path ++ "/" ++ "work_cards"

/-- `os.path.join(fortress_path, "milestone_vaults")`. -/
def milestone_vaults_path : String := fortress_path ++ "/" ++ "milestone_vaults"

/-- Strip a leading run `q` off `s`, when present. -/
def chDrop : List Char → List Char → Option (List Char)
  | [], s => some s
  | _ :: _, [] => none
  | a :: p1, b :: s1 => if a == b then chDrop p1 s1 else none

/-- The name of `path` relative to directory `dir`, when `path` lies
under it. -/
def dirEntryName (dir path : String) : Option String :=
  (chDrop (dir ++ "/").data path.data).map String.mk

/-- `os.listdir(dir)`: the names of the files under `dir`, or an error
(`none`, an `OSError` in Python) when the directory does not exist. -/
def listdir (fs : FS) (dir : String) : Option (List String) :=
  if dir ∈ fs.dirs then
    some (fs.files.filterMap (fun q => dirEntryName dir q.1))
  else none

/-- Read one file's current content; `none` is an unreadable / missing
file. -/
def readFileFS (fs : FS) (path : String) : Option String :=
  fs.files.lookup path

/-- `zipf.write(card_path, ...)` for every selected card: read every
selected file under the card directory, failing if any is unreadable. -/
def readAllCards (fs : FS) : List String → Option (List String)
  | [] => some []
  | f :: t =>
    match readFileFS fs (work_cards_path ++ "/" ++ f), readAllCards fs t with
    | some c, some cs => some (c :: cs)
    | _, _ => none

/-- Stands for the opaque archive container: a deterministic bundling of
member names and member contents into one blob. -/
def archiveBlob (names : List String) (contents : List String) : String :=
  String.intercalate "\n" names ++ "||" ++ String.intercalate "\n" contents

/-- `os.path.join(milestone_vaults_path, f"{milestone['name']}.zip")`. -/
def zipPath (m : PkgMilestone) : String :=
  milestone_vaults_path ++ "/" ++ m.name ++ ".zip"

/-- The per-milestone loop of `zip_milestone_cards`.  Each iteration
creates (truncates) the milestone's archive file, lists the card
directory, selects and reads the matching cards and writes the archive,
then appends the `{milestone, password}` record.  A failed `listdir` or an
unreadable card raises after the archive file was already created: the
loop then stops with no vault (`none`), the file system keeping the
partial write. -/
def zipLoop (date : String) :
    List PkgMilestone → FS → List VaultEntry → FS × Option (List VaultEntry)
  | [], fs, acc => (fs, some acc)
  | m :: rest, fs, acc =>
    match listdir fs work_cards_path with
    | none => (writeFile fs (zipPath m) "", none)
    | some names =>
      let sel := selectCards m.card_pattern names
      match readAllCards fs sel with
      | none => (writeFile fs (zipPath m) "", none)
      | some contents =>
        zipLoop date rest (writeFile fs (zipPath m) (archiveBlob sel contents))
          (acc ++ [⟨m.name, mkPassword date m.name⟩])

/-- `zip_milestone_cards()`: make the vault directory, then run the
milestone loop; returns the final file system and, on success, the
password vault. -/
def zip_milestone_cards (date : String) (fs : FS) : FS × Option (List VaultEntry) :=
  zipLoop date pkgMilestones (mkdirs fs milestone_vaults_path) []

/-- Stands for the opaque `json.dump` serialization of the vault list:
a deterministic encoding of all entries. -/
def vaultJson (v : List VaultEntry) : String :=
  String.intercalate "\n" (v.map (fun e => e.milestone ++ ":" ++ e.password))

/-- `os.environ.get('AGENTIC_ETC', '/tmp/agentic_etc')`: the vault base
directory comes from the environment variable when set, else the fixed
fallback. -/
def vaultBase (env : Option String) : String := env.getD "/tmp/agentic_etc"

/-- `os.path.join(agentic_etc, "beaver_passwords.secure")`. -/
def vaultPath (env : Option String) : String :=
  vaultBase env ++ "/" ++ "beaver_passwords.secure"

/-- `save_password_vault(password_vault)`: make the base directory, write
the serialized vault, then `chmod 0o600` the vault file. -/
def save_password_vault (env : Option String) (v : List VaultEntry) (fs : FS) : FS :=
  chmodFile (writeFile (mkdirs fs (vaultBase env)) (vaultPath env) (vaultJson v))
    (vaultPath env) 0o600

/-- The `__main__` entry point of `zip_milestones.py`: archive first, then
persist credentials; when archiving raises, the process dies before
`save_password_vault` runs. -/
def zipMain (date : String) (env : Option String) (fs : FS) : FS :=
  match zip_milestone_cards date fs with
  | (fs1, none) => fs1
  | (fs1, some v) => save_password_vault env v fs1

/-- A small milestone used to instantiate universally quantified
statements on concrete data. -/
def mW : Milestone := ⟨"W", (4, 5), ["a", "b"]⟩

/-- A milestone with the same name as `mW` but a different range and task
list. -/
def mW2 : Milestone := ⟨"W", (9, 9), []⟩

/-- The card directory of the packaging test scenario:
`CARD_006_x.yml` through `CARD_012_x.yml`. -/
def demoCardDir : List String :=
  ["CARD_006_x.yml", "CARD_007_x.yml", "CARD_008_x.yml", "CARD_009_x.yml",
   "CARD_010_x.yml", "CARD_011_x.yml", "CARD_012_x.yml"]

/-- Enumerating preserves length. -/
theorem enumFrom_length (start : Nat) (l : List α) :
    (enumFrom start l).length = l.length := by
  induction l generalizing start with
  | nil => rfl
  | cons a t ih => simp [enumFrom, ih]

/-- The `i`-th enumerated element pairs index `start + i` with the `i`-th
element. -/
theorem enumFrom_getElem? (start : Nat) (l : List α) (i : Nat) :
    (enumFrom start l)[i]? = l[i]?.map (fun a => (start + i, a)) := by
  induction l generalizing start i with
  | nil => simp [enumFrom]
  | cons a t ih =>
    cases i with
    | zero => simp [enumFrom]
    | succ j =>
      have h : start + 1 + j = start + (j + 1) := by omega
      simp [enumFrom, ih, h]

/-- One milestone generates exactly one card per task. -/
theorem genMilestone_length (m : Milestone) :
    (genMilestone m).length = m.tasks.length := by
  simp [genMilestone, enumFrom_length]

/-- The card at index `i` of a milestone's generation run is the synthesis
of task `i` with card number `card_range.1 + i`. -/
theorem genMilestone_getElem? (m : Milestone) (i : Nat) :
    (genMilestone m)[i]? =
      m.tasks[i]?.map (fun t => generate_work_card m (m.card_range.1 + i) t) := by
  simp [genMilestone, enumFrom_getElem?, Option.map_map]
  rfl

/-- C3: every generated card's complexity equals
`clamp(len(feature_name) / 5, 1, 10)` where `feature_name` is the task
copied verbatim, so complexity always lies in `[1, 10]`; an empty or
4-character task yields 1 and a 50-character task yields 10. -/
theorem C3_complexity_clamped :
    (∀ (m : Milestone) (n : Nat) (task : String),
        (generate_work_card m n task).complexity = min (max (task.length / 5) 1) 10 ∧
        (generate_work_card m n task).feature_name = task ∧
        1 ≤ (generate_work_card m n task).complexity ∧
        (generate_work_card m n task).complexity ≤ 10) ∧
    (generate_work_card mW 1 "abcd").complexity = 1 ∧
    (generate_work_card mW 1 "").complexity = 1 ∧
    (generate_work_card mW 1 (String.mk (List.replicate 50 'a'))).complexity = 10 := by
  refine ⟨fun m n task => ⟨rfl, rfl, ?_, ?_⟩, by decide, by decide, by decide⟩
  · have h : (generate_work_card m n task).complexity =
        min (max (task.length / 5) 1) 10 := rfl
    omega
  · have h : (generate_work_card m n task).complexity =
        min (max (task.length / 5) 1) 10 := rfl
    omega

/-- C7: one run of the generation stage produces exactly one card, and
writes exactly one file, per task: the total equals the sum of the
task-list lengths over the catalog, with no dependence on any declared
`card_range`. -/
theorem C7_card_count (catalog : List Milestone) :
    (allCards catalog).length = (catalog.map (fun m => m.tasks.length)).sum ∧
    (generationPairs catalog).length = (catalog.map (fun m => m.tasks.length)).sum := by
  constructor
  · simp [allCards, List.length_flatten, Function.comp_def, genMilestone_length]
  · simp [generationPairs, List.length_flatten, Function.comp_def, List.length_map,
      genMilestone_length]

/-- C5: when a milestone's task count is consistent with its declared
inclusive range — the length equals `end - start + 1` — every card the
milestone generates carries a card number inside `[start, end]`. -/
theorem C5_range_consistent (m : Milestone) (i : Nat) (c : Card)
    (hc : (genMilestone m)[i]? = some c)
    (hlen : (m.tasks.length : Int) = (m.card_range.2 : Int) - (m.card_range.1 : Int) + 1) :
    ∃ n : Nat, m.card_range.1 ≤ n ∧ n ≤ m.card_range.2 ∧ c.card_number = cardTag n := by
  rw [genMilestone_getElem?] at hc
  cases ht : m.tasks[i]? with
  | none => rw [ht] at hc; cases hc
  | some t =>
    rw [ht] at hc
    have hi : i < m.tasks.length := by
      by_contra hlt
      push_neg at hlt
      rw [List.getElem?_eq_none hlt] at ht
      cases ht
    have hcn : c = generate_work_card m (m.card_range.1 + i) t := by
      cases hc; rfl
    refine ⟨m.card_range.1 + i, Nat.le_add_right _ _, by omega, ?_⟩
    rw [hcn]
    rfl

/-- C5 witness: the second task of the consistent range `(4, 5)` with two
tasks yields a card numbered 5, inside the range. -/
theorem C5_witness :
    ∃ n : Nat, mW.card_range.1 ≤ n ∧ n ≤ mW.card_range.2 ∧
      (generate_work_card mW 5 "b").card_number = cardTag n :=
  C5_range_consistent mW 1 (generate_work_card mW 5 "b") (by decide) (by decide)

/-- C1 is refuted on the shipped catalog: the 14th card generated overall
(index 13, 1-based global count 14) is the first task of "Core KV
Operations" and gets card number 6 — the milestone's declared range start —
not the global running count 14; it moreover duplicates the number of the
6th card (index 5) of "TDD Foundation". -/
theorem C1_counterexample :
    ((allCards milestones)[13]?).map (fun c => c.card_number) = some "CARD_006" ∧
    ((allCards milestones)[5]?).map (fun c => c.card_number) = some "CARD_006" ∧
    (5 : Nat) ≠ 13 ∧ cardTag 14 ≠ "CARD_006" := by
  refine ⟨by decide, by decide, by decide, by decide⟩

/-- C1 (amended): card numbers restart at each milestone's declared range
start — the card at index `i` of milestone `M`'s task list is synthesized
with card number `M.card_range.start + i`, dependent on the declared
range; numbers are not globally unique across milestones. -/
theorem C1_amended_per_milestone (m : Milestone) (i : Nat) (c : Card)
    (hc : (genMilestone m)[i]? = some c) :
    ∃ t, m.tasks[i]? = some t ∧ c = generate_work_card m (m.card_range.1 + i) t ∧
      c.card_number = cardTag (m.card_range.1 + i) := by
  rw [genMilestone_getElem?] at hc
  cases ht : m.tasks[i]? with
  | none => rw [ht] at hc; cases hc
  | some t =>
    rw [ht] at hc
    have hcn : c = generate_work_card m (m.card_range.1 + i) t := by
      cases hc; rfl
    refine ⟨t, rfl, hcn, ?_⟩
    rw [hcn]
    rfl

/-- C1 (amended) witness: the first task of the range `(4, 5)` milestone
is numbered `4 + 0`. -/
theorem C1_amended_witness :
    ∃ t, mW.tasks[0]? = some t ∧
      generate_work_card mW 4 "a" = generate_work_card mW (mW.card_range.1 + 0) t ∧
      (generate_work_card mW 4 "a").card_number = cardTag (mW.card_range.1 + 0) :=
  C1_amended_per_milestone mW 0 (generate_work_card mW 4 "a") (by decide)


/-- After folding a list of writes over a directory, each name holds the
content of the last write to it, or its prior content when the list never
writes it. -/
theorem writeAll_apply (ps : List (String × String)) :
    ∀ (st : Store) (p : String),
      writeAll st ps p =
        match lookLast ps p with
        | some v => some v
        | none => st p := by
  induction ps with
  | nil => intro st p; rfl
  | cons q t ih =>
    intro st p
    show writeAll (setFile st q.1 q.2) t p = _
    rw [ih]
    cases h : lookLast t p with
    | some v => simp [lookLast, h]
    | none =>
      simp only [lookLast, h, setFile]
      by_cases hq : q.1 = p
      · simp [hq]
      · have hq2 : ¬ p = q.1 := fun hh => hq hh.symm
        simp [hq, hq2]

/-- C6: the card filename depends only on the card number tag and the
milestone name; consequently re-running the generation stage over an
unchanged catalog rewrites the same content to the same names, leaving the
card directory byte-identical (idempotent overwrite). -/
theorem C6_filename_pure_idempotent :
    (∀ (c1 c2 : Card) (m1 m2 : Milestone),
        c1.card_number = c2.card_number → m1.name = m2.name →
        cardFilename c1 m1 = cardFilename c2 m2) ∧
    (∀ (catalog : List Milestone) (st : Store),
        writeAll (writeAll st (generationPairs catalog)) (generationPairs catalog) =
          writeAll st (generationPairs catalog)) := by
  constructor
  · intro c1 c2 m1 m2 hn hm
    unfold cardFilename
    rw [hn, hm]
  · intro catalog st
    funext p
    simp only [writeAll_apply]
    cases h : lookLast (generationPairs catalog) p <;> simp [h]

/-- C6 witness: two cards synthesized from different tasks, and two
milestones that differ in range and tasks but share the name `"W"`, give
one and the same filename. -/
theorem C6_witness :
    cardFilename (generate_work_card mW 4 "a") mW =
      cardFilename (generate_work_card mW2 4 "zz") mW2 :=
  C6_filename_pure_idempotent.1 (generate_work_card mW 4 "a")
    (generate_work_card mW2 4 "zz") mW mW2 (by decide) (by decide)

/-- C2: the packager includes a file in a milestone's archive exactly when
at least one comma-separated sub-pattern of the milestone's selection
pattern occurs as a literal substring of the filename; on a card directory
`CARD_006_x.yml` … `CARD_012_x.yml`, the bracket-range patterns (with or
without the `.yml` sub-pattern tail used by the code) select zero files. -/
theorem C2_substring_selection :
    (∀ (pat : String) (files : List String) (f : String),
        f ∈ selectCards pat files ↔
          f ∈ files ∧ (splitComma pat).any (fun p => strContains f p) = true) ∧
    selectCards "CARD_00[6-9].yml,CARD_01[0-2].yml" demoCardDir = [] ∧
    selectCards "CARD_00[6-9],CARD_01[0-2]" demoCardDir = [] := by
  refine ⟨fun pat files f => ?_, by decide, by decide⟩
  simp [selectCards, matchesAny, List.mem_filter]

/-- String concatenation acts as list concatenation on the underlying
character data. -/
theorem str_data_append (a b : String) : (a ++ b).data = a.data ++ b.data := by
  cases a; cases b; rfl

/-- When the packaging loop completes, the vault it returns is its
accumulator followed by one `{name, beaver_dam_<date>_<name>}` entry per
remaining milestone, in order. -/
theorem zipLoop_vault_eq (date : String) :
    ∀ (ms : List PkgMilestone) (fs : FS) (acc v : List VaultEntry),
      (zipLoop date ms fs acc).2 = some v →
      v = acc ++ ms.map (fun m => ⟨m.name, mkPassword date m.name⟩) := by
  intro ms
  induction ms with
  | nil =>
    intro fs acc v h
    simp only [zipLoop, Option.some_inj] at h
    simp [h.symm]
  | cons m rest ih =>
    intro fs acc v h
    simp only [zipLoop] at h
    split at h
    · simp at h
    · split at h
      · simp at h
      · have hv := ih _ _ _ h
        rw [hv]
        simp

/-- Two different dates of the same rendered length give different
passwords for one and the same milestone name. -/
theorem mkPassword_date_ne (d1 d2 n : String)
    (hl : d1.length = d2.length) (hne : d1 ≠ d2) :
    mkPassword d1 n ≠ mkPassword d2 n := by
  intro h
  apply hne
  have h1 := congrArg String.data h
  simp only [mkPassword, str_data_append, List.append_assoc] at h1
  have h2 := List.append_cancel_left h1
  have hdl : d1.data.length = d2.data.length := hl
  have h3 := List.append_inj_left h2 hdl
  cases d1; cases d2
  exact congrArg String.mk h3

/-- C4: a completed packaging run records exactly one vault entry per
milestone of the packaging list, in list order, whose password is
`beaver_dam_<date>_<milestone name>`; the vault is a function of the date
alone, so a same-day rerun reproduces identical strings, while two
different (equal-length `YYYYMMDD`) dates give different passwords for
every milestone name. -/
theorem C4_vault_entries :
    (∀ (date : String) (fs : FS) (v : List VaultEntry),
        (zip_milestone_cards date fs).2 = some v →
        v = pkgMilestones.map (fun m => ⟨m.name, mkPassword date m.name⟩) ∧
        v.map (fun e => e.milestone) = pkgMilestones.map (fun m => m.name) ∧
        ∀ e ∈ v, e.password = "beaver_dam_" ++ date ++ "_" ++ e.milestone) ∧
    (∀ (d1 d2 n : String), d1.length = d2.length → d1 ≠ d2 →
        mkPassword d1 n ≠ mkPassword d2 n) := by
  constructor
  · intro date fs v h
    have hv := zipLoop_vault_eq date pkgMilestones (mkdirs fs milestone_vaults_path) [] v h
    simp only [List.nil_append] at hv
    refine ⟨hv, by rw [hv]; rfl, ?_⟩
    intro e he
    rw [hv] at he
    simp only [List.mem_map] at he
    obtain ⟨m, hm, rfl⟩ := he
    rfl
  · exact mkPassword_date_ne

/-- The vault a packaging run dated `20250101` returns. -/
def vaultW : List VaultEntry :=
  pkgMilestones.map (fun m => ⟨m.name, mkPassword "20250101" m.name⟩)

/-- An initial file system in which the card directory exists and is
empty. -/
def fsW : FS := ⟨[work_cards_path], [], []⟩

/-- C4 witness: a concrete run over an existing empty card directory on
date `20250101` yields exactly the five expected entries, and the same
milestone's password changes from `20250101` to `20250102`. -/
theorem C4_witness :
    vaultW = pkgMilestones.map (fun m => ⟨m.name, mkPassword "20250101" m.name⟩) ∧
    mkPassword "20250101" "A" ≠ mkPassword "20250102" "A" :=
  ⟨(C4_vault_entries.1 "20250101" fsW vaultW (by decide)).1,
   C4_vault_entries.2 "20250101" "20250102" "A" (by decide) (by decide)⟩

/-- `os.makedirs` changes no file contents. -/
theorem mkdirs_files (fs : FS) (d : String) : (mkdirs fs d).files = fs.files := by
  unfold mkdirs
  split <;> rfl

/-- `os.makedirs` changes no permission bits. -/
theorem mkdirs_perms (fs : FS) (d : String) : (mkdirs fs d).perms = fs.perms := by
  unfold mkdirs
  split <;> rfl

/-- C8: the vault file is written at `<base>/beaver_passwords.secure`,
where the base directory is the environment variable's value when set and
the fixed fallback `/tmp/agentic_etc` otherwise; after
`save_password_vault` the file holds the serialized vault and its
permission bits are `0o600`. -/
theorem C8_vault_location_perms (env : Option String) (v : List VaultEntry) (fs : FS) :
    vaultPath env = vaultBase env ++ "/" ++ "beaver_passwords.secure" ∧
    vaultBase none = "/tmp/agentic_etc" ∧
    (∀ b, vaultBase (some b) = b) ∧
    (save_password_vault env v fs).files.lookup (vaultPath env) = some (vaultJson v) ∧
    (save_password_vault env v fs).perms.lookup (vaultPath env) = some 0o600 := by
  refine ⟨rfl, rfl, fun b => rfl, ?_, ?_⟩
  · simp [save_password_vault, chmodFile, writeFile, mkdirs_files, List.lookup]
  · simp [save_password_vault, chmodFile, writeFile, List.lookup]

/-- The packaging loop never touches permission bits. -/
theorem zipLoop_perms (date : String) :
    ∀ (ms : List PkgMilestone) (fs : FS) (acc : List VaultEntry),
      (zipLoop date ms fs acc).1.perms = fs.perms := by
  intro ms
  induction ms with
  | nil => intro fs acc; rfl
  | cons m rest ih =>
    intro fs acc
    simp only [zipLoop]
    split
    · rfl
    · split
      · rfl
      · rw [ih]
        rfl

/-- The packaging loop writes files only at the milestone archive paths:
the content seen at any other path is unchanged. -/
theorem zipLoop_files_lookup (date p : String) :
    ∀ (ms : List PkgMilestone) (fs : FS) (acc : List VaultEntry),
      (∀ m ∈ ms, p ≠ zipPath m) →
      (zipLoop date ms fs acc).1.files.lookup p = fs.files.lookup p := by
  intro ms
  induction ms with
  | nil => intro fs acc hp; rfl
  | cons m rest ih =>
    intro fs acc hp
    have hm : p ≠ zipPath m := hp m (List.mem_cons_self m rest)
    have hrest : ∀ m' ∈ rest, p ≠ zipPath m' :=
      fun m' h => hp m' (List.mem_cons_of_mem m h)
    have hwb : (p == zipPath m) = false := beq_eq_false_iff_ne.mpr hm
    have hlk : ∀ c, (writeFile fs (zipPath m) c).files.lookup p = fs.files.lookup p := by
      intro c
      simp [writeFile, List.lookup, hwb]
    simp only [zipLoop]
    split
    · exact hlk _
    · split
      · exact hlk _
      · rw [ih _ _ hrest, hlk]

/-- Appending a nonempty string on the right fixes the last character. -/
theorem str_getLast?_append (a b : String) (hb : b.data ≠ []) :
    (a ++ b).data.getLast? = b.data.getLast? := by
  rw [str_data_append]
  obtain ⟨c, hc⟩ := Option.isSome_iff_exists.mp (List.getLast?_isSome.mpr hb)
  rw [List.getLast?_append, hc]
  rfl

/-- The vault path ends in `e` while every archive path ends in `p`: no
archive write can land on the vault file, whatever the environment. -/
theorem vaultPath_ne_zipPath (env : Option String) (m : PkgMilestone) :
    vaultPath env ≠ zipPath m := by
  intro h
  have hv : (vaultPath env).data.getLast? = some 'e' := by
    rw [vaultPath, str_getLast?_append _ _ (by decide)]
    decide
  have hz : (zipPath m).data.getLast? = some 'p' := by
    rw [zipPath, str_getLast?_append _ _ (by decide)]
    decide
  rw [h, hz] at hv
  cases hv

/-- C9: when archiving fails — the milestone loop stops with no vault —
`save_password_vault` never runs, and the on-disk vault file (content and
permission bits) is exactly as before the run, whatever base directory the
environment designates. -/
theorem C9_vault_unchanged_on_failure (date : String) (env : Option String) (fs : FS)
    (h : (zip_milestone_cards date fs).2 = none) :
    (zipMain date env fs).files.lookup (vaultPath env) =
      fs.files.lookup (vaultPath env) ∧
    (zipMain date env fs).perms.lookup (vaultPath env) =
      fs.perms.lookup (vaultPath env) := by
  have hpair : zip_milestone_cards date fs = ((zip_milestone_cards date fs).1, none) := by
    rw [← h]
  have hmain : zipMain date env fs = (zip_milestone_cards date fs).1 := by
    unfold zipMain
    rw [hpair]
  rw [hmain]
  unfold zip_milestone_cards
  constructor
  · rw [zipLoop_files_lookup date (vaultPath env) pkgMilestones _ []
      (fun m _ => vaultPath_ne_zipPath env m), mkdirs_files]
  · rw [zipLoop_perms, mkdirs_perms]

/-- A bare initial file system: nothing exists, so the first milestone's
`listdir` of the card directory fails. -/
def fsE : FS := ⟨[], [], []⟩

/-- C9 witness: a run over the bare file system fails archiving and leaves
the vault file absent exactly as before. -/
theorem C9_witness :
    (zipMain "20250101" none fsE).files.lookup (vaultPath none) =
      fsE.files.lookup (vaultPath none) ∧
    (zipMain "20250101" none fsE).perms.lookup (vaultPath none) =
      fsE.perms.lookup (vaultPath none) :=
  C9_vault_unchanged_on_failure "20250101" none fsE (by decide)

/-- The file system the packaging loop produces does not depend on the
date or on the vault accumulator. -/
theorem zipLoop_fst_date :
    ∀ (ms : List PkgMilestone) (fs : FS) (d1 d2 : String)
      (acc1 acc2 : List VaultEntry),
      (zipLoop d1 ms fs acc1).1 = (zipLoop d2 ms fs acc2).1 := by
  intro ms
  induction ms with
  | nil => intro fs d1 d2 acc1 acc2; rfl
  | cons m rest ih =>
    intro fs d1 d2 acc1 acc2
    simp only [zipLoop]
    split
    · rfl
    · split
      · rfl
      · exact ih _ _ _ _ _

/-- Whether the loop completes, and which milestones its vault lists, do
not depend on the date. -/
theorem zipLoop_snd_names :
    ∀ (ms : List PkgMilestone) (fs : FS) (d1 d2 : String)
      (acc1 acc2 : List VaultEntry),
      acc1.map (fun e => e.milestone) = acc2.map (fun e => e.milestone) →
      ((zipLoop d1 ms fs acc1).2).map (fun v => v.map (fun e => e.milestone)) =
        ((zipLoop d2 ms fs acc2).2).map (fun v => v.map (fun e => e.milestone)) := by
  intro ms
  induction ms with
  | nil =>
    intro fs d1 d2 acc1 acc2 hacc
    simpa [zipLoop] using hacc
  | cons m rest ih =>
    intro fs d1 d2 acc1 acc2 hacc
    simp only [zipLoop]
    split
    · rfl
    · split
      · rfl
      · apply ih
        simp [hacc]

/-- C10: two packaging runs over the same card directory on different
dates write identical file systems — every milestone's archive holds the
same member files with the same contents — and complete or fail
identically with the same milestone list in the vault: the date can only
influence the password strings. -/
theorem C10_archives_date_independent (d1 d2 : String) (fs : FS) :
    (zip_milestone_cards d1 fs).1 = (zip_milestone_cards d2 fs).1 ∧
    ((zip_milestone_cards d1 fs).2).map (fun v => v.map (fun e => e.milestone)) =
      ((zip_milestone_cards d2 fs).2).map (fun v => v.map (fun e => e.milestone)) := by
  unfold zip_milestone_cards
  exact ⟨zipLoop_fst_date pkgMilestones _ d1 d2 [] [],
    zipLoop_snd_names pkgMilestones _ d1 d2 [] [] rfl⟩
